import Mathlib

/-!
Verification of the Reddit CRUD wrapper (RedditManager.py and app.py).

The repository is a thin facade over the Reddit API: a `RedditManager`
class that validates five environment variables at construction and
exposes five operations (create_post, read_post, update_post,
delete_post, get_recent_posts), each translating one method call into
one remote request and converting every exception into a uniform
result (Option, Bool, or empty list) plus a logged message; and a
Streamlit script (app.py) that renders a form UI and calls the facade.

We give a shallow embedding: the remote Reddit service is a
deterministic oracle (`RemoteService`) whose fields say, for each kind
of remote request, whether it succeeds and with what data; every
facade operation is a pure Lean function of the manager, the oracle
and the arguments, returning the Python return value TOGETHER with the
(unchanged) object state, the list of remote calls performed and the
log lines emitted.  The Streamlit script is embedded as a function
producing the list of UI events a single script run emits.
-/

set_option autoImplicit false

/-- The process environment, as seen by `os.getenv`: `none` when the
variable is unset. -/
def PyEnv : Type := String → Option String

/-- Python truthiness test `not os.getenv(var)` on an optional string:
true when the variable is absent (`None`) or set to the empty string. -/
def pyFalsyStr (o : Option String) : Bool :=
  match o with
  | none => true
  | some s => s.isEmpty

/-- The list `required_vars` from `RedditManager.__init__`. -/
def requiredVars : List String :=
  ["REDDIT_CLIENT_ID", "REDDIT_CLIENT_SECRET", "REDDIT_USERNAME",
   "REDDIT_PASSWORD", "REDDIT_USER_AGENT"]

/-- The credentials handed to `praw.Reddit(...)` in `__init__`; the praw
session object is lazy, so constructing it performs no remote call and
only records the credentials. -/
structure Session where
  client_id : Option String
  client_secret : Option String
  user_agent : Option String
  username : Option String
  password : Option String
deriving DecidableEq, Repr

/-- The `RedditManager` object: the five credential fields assigned in
`__init__`, plus `self.reddit`, the session handle. -/
structure RedditManager where
  client_id : Option String
  client_secret : Option String
  username : Option String
  password : Option String
  user_agent : Option String
  reddit : Session
deriving DecidableEq, Repr

/-- `RedditManager.__init__`: reads the five environment variables,
collects `missing_vars` (those for which `not os.getenv(var)` holds) and
raises `ValueError` naming all of them when the list is nonempty;
otherwise constructs the praw session from the credentials. -/
def RedditManager.init (env : PyEnv) : Except String RedditManager :=
  let client_id := env "REDDIT_CLIENT_ID"
  let client_secret := env "REDDIT_CLIENT_SECRET"
  let username := env "REDDIT_USERNAME"
  let password := env "REDDIT_PASSWORD"
  let user_agent := env "REDDIT_USER_AGENT"
  let missing_vars := requiredVars.filter (fun v => pyFalsyStr (env v))
  if missing_vars.isEmpty then
    .ok { client_id := client_id, client_secret := client_secret,
          username := username, password := password,
          user_agent := user_agent,
          reddit := { client_id := client_id, client_secret := client_secret,
                      user_agent := user_agent, username := username,
                      password := password } }
  else
    .error ("Missing required environment variables: "
            ++ String.intercalate ", " missing_vars)

/-- A post as the remote service reports it: the praw submission
attributes the code reads. `author` is `none` for a deleted account
(Python `None`). -/
structure RemotePost where
  id : String
  title : String
  selftext : String
  score : Int
  url : String
  created_utc : Int
  author : Option String
  num_comments : Int
deriving DecidableEq, Repr

/-- One remote request, as issued by the facade. `reddit.subreddit(...)`
and `reddit.submission(id=...)` are lazy in praw and issue no request;
the request happens at `submit`/`submit_image`/`edit`/`delete`/attribute
access/iteration, which is what these constructors record. -/
inductive RemoteCall where
  | submitText (subreddit title selftext : String)
  | submitLink (subreddit title url : String)
  | submitImage (subreddit title image_path : String)
  | fetchSubmission (post_id : String)
  | editSubmission (post_id body : String)
  | deleteSubmission (post_id : String)
  | userMe
  | listOwnSubmissionsNew (limit : Nat)
deriving DecidableEq, Repr

/-- The remote service as a deterministic oracle: for each request kind,
either a result or the text of the exception the client library raises.
`ownSubmissionsNewestFirst` is the full stream of the authenticated
account's submissions in the newest-first order the backend reports. -/
structure RemoteService where
  submitText : String → String → String → Except String String
  submitLink : String → String → String → Except String String
  submitImage : String → String → String → Except String String
  fetchSubmission : String → Except String RemotePost
  editSubmission : String → String → Except String Unit
  deleteSubmission : String → Except String Unit
  userMe : Except String Unit
  ownSubmissionsNewestFirst : Except String (List RemotePost)

/-- Result of running one facade method: the Python return value, the
object (`self`) as it stands after the call, the remote calls issued and
the log lines emitted. -/
structure OpResult (α : Type) where
  value : α
  self : RedditManager
  calls : List RemoteCall
  log : List String
deriving DecidableEq, Repr

/-- Python `str()` of the optional `post.author` value: `str(None)` is
the string `None`. -/
def pyStrOpt (o : Option String) : String :=
  match o with
  | none => "None"
  | some s => s

/-- A dict value in the record built by `read_post`: a string, an
integer, or the `datetime` obtained from `datetime.fromtimestamp`. -/
inductive PyValue where
  | str (s : String)
  | int (n : Int)
  | time (ts : Int)
deriving DecidableEq, Repr

/-- The `post_data` dictionary: insertion-ordered key/value pairs. -/
def PostDict : Type := List (String × PyValue)

/-- `RedditManager.create_post`: dispatches on `post_type` to
`subreddit.submit(title, selftext=content)`,
`subreddit.submit(title, url=content)` or
`subreddit.submit_image(title, image_path=content)`; any other
`post_type` raises a `ValueError` before any remote request. Every
exception is caught, logged, and turned into `None`; on success the new
post's id is logged and returned. -/
def RedditManager.create_post (m : RedditManager) (svc : RemoteService)
    (subreddit_name title content post_type : String) :
    OpResult (Option String) :=
  if post_type = "text" then
    match svc.submitText subreddit_name title content with
    | .ok pid =>
        ⟨some pid, m, [.submitText subreddit_name title content],
         ["Created post: " ++ pid]⟩
    | .error e =>
        ⟨none, m, [.submitText subreddit_name title content],
         ["Error creating post: " ++ e]⟩
  else if post_type = "link" then
    match svc.submitLink subreddit_name title content with
    | .ok pid =>
        ⟨some pid, m, [.submitLink subreddit_name title content],
         ["Created post: " ++ pid]⟩
    | .error e =>
        ⟨none, m, [.submitLink subreddit_name title content],
         ["Error creating post: " ++ e]⟩
  else if post_type = "image" then
    match svc.submitImage subreddit_name title content with
    | .ok pid =>
        ⟨some pid, m, [.submitImage subreddit_name title content],
         ["Created post: " ++ pid]⟩
    | .error e =>
        ⟨none, m, [.submitImage subreddit_name title content],
         ["Error creating post: " ++ e]⟩
  else
    ⟨none, m, [],
     ["Error creating post: Invalid post type. Must be \x27text\x27, \x27link\x27, or \x27image\x27"]⟩

/-- `create_post` called with the `post_type` argument omitted: the
Python signature declares the default `post_type=\x27text\x27`. -/
def RedditManager.create_post_nokind (m : RedditManager)
    (svc : RemoteService) (subreddit_name title content : String) :
    OpResult (Option String) :=
  m.create_post svc subreddit_name title content "text"

/-- `RedditManager.read_post`: fetches the submission (one remote fetch,
triggered by the first attribute access) and builds the `post_data`
dictionary with exactly the eight keys of the source; every exception is
caught, logged, and turned into `None`. -/
def RedditManager.read_post (m : RedditManager) (svc : RemoteService)
    (post_id : String) : OpResult (Option PostDict) :=
  match svc.fetchSubmission post_id with
  | .ok post =>
      ⟨some [("id", .str post.id),
             ("title", .str post.title),
             ("content", .str post.selftext),
             ("score", .int post.score),
             ("url", .str post.url),
             ("created_utc", .time post.created_utc),
             ("author", .str (pyStrOpt post.author)),
             ("num_comments", .int post.num_comments)],
       m, [.fetchSubmission post_id], []⟩
  | .error e =>
      ⟨none, m, [.fetchSubmission post_id], ["Error reading post: " ++ e]⟩

/-- `RedditManager.update_post`: `post.edit(new_content)` on the lazy
submission handle; returns `True` exactly when the remote edit request
raises no exception, `False` (after logging) otherwise. -/
def RedditManager.update_post (m : RedditManager) (svc : RemoteService)
    (post_id new_content : String) : OpResult Bool :=
  match svc.editSubmission post_id new_content with
  | .ok _ =>
      ⟨true, m, [.editSubmission post_id new_content],
       ["Updated post: " ++ post_id]⟩
  | .error e =>
      ⟨false, m, [.editSubmission post_id new_content],
       ["Error updating post: " ++ e]⟩

/-- `RedditManager.delete_post`: `post.delete()` on the lazy submission
handle; returns `True` exactly when the remote delete request raises no
exception, `False` (after logging) otherwise. -/
def RedditManager.delete_post (m : RedditManager) (svc : RemoteService)
    (post_id : String) : OpResult Bool :=
  match svc.deleteSubmission post_id with
  | .ok _ =>
      ⟨true, m, [.deleteSubmission post_id], ["Deleted post: " ++ post_id]⟩
  | .error e =>
      ⟨false, m, [.deleteSubmission post_id],
       ["Error deleting post: " ++ e]⟩

/-- `RedditManager.get_recent_posts`: `self.reddit.user.me()` (one
remote call), then `user.submissions.new(limit=limit)` iterated by the
list comprehension, which yields at most `limit` posts off the
newest-first stream the backend reports; each becomes a
title/id pair. Every exception is caught, logged, and turned into the
empty list. -/
def RedditManager.get_recent_posts (m : RedditManager)
    (svc : RemoteService) (limit : Nat) :
    OpResult (List (String × String)) :=
  match svc.userMe with
  | .error e =>
      ⟨[], m, [.userMe], ["Error fetching user\x27s recent posts: " ++ e]⟩
  | .ok _ =>
      match svc.ownSubmissionsNewestFirst with
      | .error e =>
          ⟨[], m, [.userMe, .listOwnSubmissionsNew limit],
           ["Error fetching user\x27s recent posts: " ++ e]⟩
      | .ok posts =>
          ⟨(posts.take limit).map (fun p => (p.title, p.id)), m,
           [.userMe, .listOwnSubmissionsNew limit], []⟩

/-- One UI action the Streamlit script performs during a run: a message
rendered, a widget drawn, a facade method invoked, or an uncaught Python
exception that aborts the run. -/
inductive UIEvent where
  | errorMsg (msg : String)
  | warningMsg (msg : String)
  | successMsg (msg : String)
  | infoMsg (msg : String)
  | writeMsg (msg : String)
  | markdownMsg (msg : String)
  | headerMsg (msg : String)
  | selectbox (label : String)
  | facadeCall (c : RemoteCall)
  | pyException (name : String)
deriving DecidableEq, Repr

/-- Python dict insertion: an existing key is overwritten in place, a
new key is appended, preserving insertion order. -/
def pyDictInsert (d : List (String × String)) (k v : String) :
    List (String × String) :=
  if d.any (fun kv => kv.1 = k) then
    d.map (fun kv => if kv.1 = k then (k, v) else kv)
  else
    d ++ [(k, v)]

/-- The dict comprehension over a list of (title, id) pairs in app.py:
later pairs with the same title overwrite earlier ones. -/
def pyDictOfPairs (ps : List (String × String)) : List (String × String) :=
  ps.foldl (fun d p => pyDictInsert d p.1 p.2) []

/-- `post_data.get(key, default)` where the looked-up value, when
present, is a string rendered into the f-string. -/
def pyDictGetStr (d : PostDict) (k default : String) : String :=
  match d.find? (fun kv => kv.1 = k) with
  | some kv =>
      match kv.2 with
      | .str s => s
      | .int n => toString n
      | .time ts => toString ts
  | none => default

/-- The display URL the Update Post branch rebuilds (app.py lines
82-83): `post_data.get(\x27subreddit\x27, \x27unknown\x27)` spliced into
the reddit comments URL. -/
def updateFlowUrl (post_data : PostDict) (post_id : String) : String :=
  let subreddit_name := pyDictGetStr post_data "subreddit" "unknown"
  "https://www.reddit.com/r/" ++ subreddit_name ++ "/comments/"
    ++ post_id ++ "/"

/-- `get_recent_posts_dropdown()` in app.py: fetches ten recent posts,
shows a warning and returns `None` when the list is empty, otherwise
draws the post selectbox (whose default selection is the first dict
key) and returns the selected post id. -/
def runDropdown (mg : RedditManager) (svc : RemoteService) :
    List UIEvent × Option String :=
  let r := mg.get_recent_posts svc 10
  match r.value with
  | [] => ([.facadeCall (.listOwnSubmissionsNew 10),
            .warningMsg "No recent posts found."], none)
  | ps => ([.facadeCall (.listOwnSubmissionsNew 10),
            .selectbox "Select a Post"],
           ((pyDictOfPairs ps).head?).map (fun kv => kv.2))

/-- The body of the app script after the sidebar: the branch selected by
`platform` and `operation`, given the (possibly failed) construction
result. When construction failed, `reddit_manager` is an unbound name,
so the first use of it raises `NameError` and aborts the run before any
facade method is entered. -/
def appBody (mgr : Option RedditManager) (svc : RemoteService)
    (platform operation subreddit_name title content post_type
      new_content : String) (pressed : Bool) : List UIEvent :=
  if platform = "Reddit" then
    if operation = "Create Post" then
      let hdr : List UIEvent := [.headerMsg "Create a New Reddit Post"]
      if pressed then
        match mgr with
        | none => hdr ++ [.pyException "NameError"]
        | some mg =>
            let r := mg.create_post svc subreddit_name title content post_type
            hdr ++ (r.calls.map UIEvent.facadeCall) ++
            (match r.value with
             | some pid =>
                 [.successMsg ("Post created successfully! Post ID: " ++ pid),
                  .markdownMsg ("https://www.reddit.com/r/" ++ subreddit_name
                    ++ "/comments/" ++ pid ++ "/")]
             | none => [.errorMsg "Failed to create the post."])
      else hdr
    else if operation = "Read Post" then
      let hdr : List UIEvent := [.headerMsg "Read a Reddit Post"]
      match mgr with
      | none => hdr ++ [.pyException "NameError"]
      | some mg =>
          let d := runDropdown mg svc
          hdr ++ d.1 ++
          (match d.2, pressed with
           | some pid, true =>
               let r := mg.read_post svc pid
               (r.calls.map UIEvent.facadeCall) ++
               (match r.value with
                | some _ => [.writeMsg "Post details:"]
                | none => [.errorMsg "Failed to fetch the post."])
           | _, _ => [])
    else if operation = "Update Post" then
      let hdr : List UIEvent := [.headerMsg "Update an Existing Reddit Post"]
      match mgr with
      | none => hdr ++ [.pyException "NameError"]
      | some mg =>
          let d := runDropdown mg svc
          hdr ++ d.1 ++
          (match d.2, pressed with
           | some pid, true =>
               let r := mg.update_post svc pid new_content
               (r.calls.map UIEvent.facadeCall) ++
               (if r.value then
                  [UIEvent.successMsg "Post updated successfully!"] ++
                  (let rd := mg.read_post svc pid
                   (rd.calls.map UIEvent.facadeCall) ++
                   (match rd.value with
                    | none => [.pyException "AttributeError"]
                    | some pd => [.markdownMsg (updateFlowUrl pd pid)]))
                else [.errorMsg "Failed to update the post."])
           | _, _ => [])
    else if operation = "Delete Post" then
      let hdr : List UIEvent := [.headerMsg "Delete a Reddit Post"]
      match mgr with
      | none => hdr ++ [.pyException "NameError"]
      | some mg =>
          let d := runDropdown mg svc
          hdr ++ d.1 ++
          (match d.2, pressed with
           | some pid, true =>
               let r := mg.delete_post svc pid
               (r.calls.map UIEvent.facadeCall) ++
               (if r.value then
                  [UIEvent.successMsg "Post deleted successfully!",
                   .infoMsg "Note: The post has been deleted, so it is no longer available on Reddit."]
                else [.errorMsg "Failed to delete the post."])
           | _, _ => [])
    else []
  else
    [.writeMsg (platform ++ " integration coming soon!")]

/-- One run of the app.py script: the top-level try/except around
`RedditManager()` reports a failure with `st.error` and falls through;
the two sidebar selectboxes are then drawn unconditionally, and the
selected branch runs. -/
def appScript (env : PyEnv) (svc : RemoteService)
    (platform operation subreddit_name title content post_type
      new_content : String) (pressed : Bool) : List UIEvent :=
  let initRes := RedditManager.init env
  let initEvents : List UIEvent :=
    match initRes with
    | .ok _ => []
    | .error e => [.errorMsg ("Failed to initialize RedditManager: " ++ e)]
  let mgr : Option RedditManager :=
    match initRes with
    | .ok mg => some mg
    | .error _ => none
  initEvents ++
  [UIEvent.selectbox "Select Social Media Platform",
   UIEvent.selectbox "Select Operation"] ++
  appBody mgr svc platform operation subreddit_name title content
    post_type new_content pressed

/-- A facade method call, for stating state-preservation over call
sequences. -/
inductive FacadeOp where
  | create (subreddit_name title content post_type : String)
  | read (post_id : String)
  | update (post_id new_content : String)
  | delete (post_id : String)
  | listRecent (limit : Nat)
deriving DecidableEq, Repr

/-- The object state (`self`) after running one facade method. -/
def runOp (m : RedditManager) (svc : RemoteService) : FacadeOp → RedditManager
  | .create sub t c k => (m.create_post svc sub t c k).self
  | .read pid => (m.read_post svc pid).self
  | .update pid c => (m.update_post svc pid c).self
  | .delete pid => (m.delete_post svc pid).self
  | .listRecent n => (m.get_recent_posts svc n).self

/-- The object state after running a sequence of facade methods. -/
def runOps (m : RedditManager) (svc : RemoteService) :
    List FacadeOp → RedditManager
  | [] => m
  | op :: rest => runOps (runOp m svc op) svc rest

/-- An environment with every variable unset. -/
def envNone : PyEnv := fun _ => none

/-- A fully-populated manager, for concrete evaluations. -/
def mgr0 : RedditManager :=
  { client_id := some "cid", client_secret := some "sec",
    username := some "user", password := some "pw",
    user_agent := some "agent",
    reddit := { client_id := some "cid", client_secret := some "sec",
                user_agent := some "agent", username := some "user",
                password := some "pw" } }

/-- A concrete remote post, for concrete evaluations. -/
def post0 : RemotePost :=
  { id := "abc123", title := "Hello", selftext := "Hi there", score := 1,
    url := "https://example.com", created_utc := 1700000000,
    author := some "user", num_comments := 0 }

/-- An always-succeeding remote service, for concrete evaluations. -/
def svc0 : RemoteService :=
  { submitText := fun _ _ _ => .ok "abc123",
    submitLink := fun _ _ _ => .ok "abc123",
    submitImage := fun _ _ _ => .ok "abc123",
    fetchSubmission := fun _ => .ok post0,
    editSubmission := fun _ _ => .ok (),
    deleteSubmission := fun _ => .ok (),
    userMe := .ok (),
    ownSubmissionsNewestFirst := .ok [post0] }

/-- An always-failing remote service, for concrete evaluations. -/
def svcFail : RemoteService :=
  { submitText := fun _ _ _ => .error "boom",
    submitLink := fun _ _ _ => .error "boom",
    submitImage := fun _ _ _ => .error "boom",
    fetchSubmission := fun _ => .error "boom",
    editSubmission := fun _ _ => .error "boom",
    deleteSubmission := fun _ => .error "boom",
    userMe := .error "boom",
    ownSubmissionsNewestFirst := .error "boom" }

/-- The dictionary `read_post` builds from `post0`. -/
def postDict0 : PostDict :=
  [("id", .str "abc123"),
   ("title", .str "Hello"),
   ("content", .str "Hi there"),
   ("score", .int 1),
   ("url", .str "https://example.com"),
   ("created_utc", .time 1700000000),
   ("author", .str "user"),
   ("num_comments", .int 0)]

theorem pyFalsyStr_iff (o : Option String) :
    pyFalsyStr o = true ↔ (o = none ∨ o = some "") := by
  cases o with
  | none => simp [pyFalsyStr]
  | some s => simp [pyFalsyStr, String.isEmpty_iff]

theorem runOp_eq_self (m : RedditManager) (svc : RemoteService)
    (op : FacadeOp) : runOp m svc op = m := by
  cases op with
  | create sub t c k =>
      show (m.create_post svc sub t c k).self = m
      unfold RedditManager.create_post
      split_ifs
      · cases svc.submitText sub t c <;> rfl
      · cases svc.submitLink sub t c <;> rfl
      · cases svc.submitImage sub t c <;> rfl
      · rfl
  | read pid =>
      show (m.read_post svc pid).self = m
      unfold RedditManager.read_post
      cases svc.fetchSubmission pid <;> rfl
  | update pid c =>
      show (m.update_post svc pid c).self = m
      unfold RedditManager.update_post
      cases svc.editSubmission pid c <;> rfl
  | delete pid =>
      show (m.delete_post svc pid).self = m
      unfold RedditManager.delete_post
      cases svc.deleteSubmission pid <;> rfl
  | listRecent n =>
      show (m.get_recent_posts svc n).self = m
      unfold RedditManager.get_recent_posts
      cases svc.userMe with
      | error e => rfl
      | ok u => cases svc.ownSubmissionsNewestFirst <;> rfl

/-- Claim C2: for every `post_type` outside text/link/image, `create_post`
issues no remote call (the invalid kind is caught locally, before any
request) and returns `None` instead of raising. -/
theorem create_post_invalid_kind (m : RedditManager) (svc : RemoteService)
    (subreddit_name title content post_type : String)
    (h : post_type ∉ (["text", "link", "image"] : List String)) :
    (m.create_post svc subreddit_name title content post_type).value = none ∧
    (m.create_post svc subreddit_name title content post_type).calls = [] := by
  simp only [List.mem_cons, List.not_mem_nil, or_false, not_or] at h
  obtain ⟨h1, h2, h3⟩ := h
  simp [RedditManager.create_post, h1, h2, h3]

/-- Witness for C2 at the concrete invalid kind `video`. -/
theorem create_post_invalid_kind_witness :
    ("video" ∉ (["text", "link", "image"] : List String)) ∧
    (mgr0.create_post svc0 "test" "t" "c" "video").value = none ∧
    (mgr0.create_post svc0 "test" "t" "c" "video").calls = [] :=
  ⟨by decide,
   create_post_invalid_kind mgr0 svc0 "test" "t" "c" "video" (by decide)⟩

/-- Claim C10: omitting the `post_type` argument means the Python default
`text`, so the call behaves exactly as a text post and performs the
selftext submission. -/
theorem create_post_default_is_text (m : RedditManager)
    (svc : RemoteService) (subreddit_name title content : String) :
    m.create_post_nokind svc subreddit_name title content
      = m.create_post svc subreddit_name title content "text" ∧
    (m.create_post_nokind svc subreddit_name title content).calls
      = [RemoteCall.submitText subreddit_name title content] := by
  refine ⟨rfl, ?_⟩
  show (m.create_post svc subreddit_name title content "text").calls = _
  unfold RedditManager.create_post
  simp only [if_pos rfl]
  cases svc.submitText subreddit_name title content <;> rfl

/-- Claim C5: `update_post` and `delete_post` always return a boolean and
never raise; the result is `True` exactly when the remote edit/delete
request completes without an exception, `False` on any failure. -/
theorem update_delete_boolean (m : RedditManager) (svc : RemoteService)
    (post_id new_content : String) :
    ((m.update_post svc post_id new_content).value = true ↔
      svc.editSubmission post_id new_content = .ok ()) ∧
    ((m.update_post svc post_id new_content).value = false ↔
      ∃ e, svc.editSubmission post_id new_content = .error e) ∧
    ((m.delete_post svc post_id).value = true ↔
      svc.deleteSubmission post_id = .ok ()) ∧
    ((m.delete_post svc post_id).value = false ↔
      ∃ e, svc.deleteSubmission post_id = .error e) := by
  unfold RedditManager.update_post RedditManager.delete_post
  cases h1 : svc.editSubmission post_id new_content with
  | error e => cases h2 : svc.deleteSubmission post_id <;> simp
  | ok u =>
      cases u
      cases h2 : svc.deleteSubmission post_id with
      | error e => simp
      | ok v => cases v; simp

/-- Claim C9: no facade field (credentials or session handle) is ever
mutated by any of the five operations: after any sequence of calls the
object equals its state at construction. -/
theorem facade_state_never_mutated (m : RedditManager)
    (svc : RemoteService) (ops : List FacadeOp) : runOps m svc ops = m := by
  induction ops with
  | nil => rfl
  | cons op rest ih => rw [runOps, runOp_eq_self, ih]

theorem mem_missing_vars_iff (env : PyEnv) (v : String) :
    v ∈ requiredVars.filter (fun v => pyFalsyStr (env v)) ↔
      (v ∈ requiredVars ∧ (env v = none ∨ env v = some "")) := by
  rw [List.mem_filter, pyFalsyStr_iff]

/-- Claim C3: facade construction fails exactly when one of the five
required environment variables is absent or empty, and the raised error
names exactly the set of missing variables (every missing one). -/
theorem init_fails_iff_missing (env : PyEnv) :
    ((∃ msg, RedditManager.init env = .error msg) ↔
      ∃ v ∈ requiredVars, env v = none ∨ env v = some "") ∧
    (∀ msg, RedditManager.init env = .error msg →
      msg = "Missing required environment variables: "
        ++ String.intercalate ", "
            (requiredVars.filter (fun v => pyFalsyStr (env v))) ∧
      ∀ v, v ∈ requiredVars.filter (fun v => pyFalsyStr (env v)) ↔
        (v ∈ requiredVars ∧ (env v = none ∨ env v = some ""))) := by
  cases hms : requiredVars.filter (fun v => pyFalsyStr (env v)) with
  | nil =>
      constructor
      · constructor
        · rintro ⟨msg, hmsg⟩
          simp only [RedditManager.init] at hmsg
          rw [hms] at hmsg
          simp at hmsg
        · rintro ⟨v, hv, hcase⟩
          have : v ∈ requiredVars.filter (fun v => pyFalsyStr (env v)) :=
            (mem_missing_vars_iff env v).mpr ⟨hv, hcase⟩
          rw [hms] at this
          simp at this
      · intro msg hmsg
        simp only [RedditManager.init] at hmsg
        rw [hms] at hmsg
        simp at hmsg
  | cons a t =>
      have herr : RedditManager.init env
          = .error ("Missing required environment variables: "
              ++ String.intercalate ", " (a :: t)) := by
        simp only [RedditManager.init]
        rw [hms]
        simp
      constructor
      · constructor
        · intro _
          have ha : a ∈ requiredVars.filter (fun v => pyFalsyStr (env v)) := by
            rw [hms]; exact List.mem_cons_self a t
          have := (mem_missing_vars_iff env a).mp ha
          exact ⟨a, this.1, this.2⟩
        · intro _
          exact ⟨_, herr⟩
      · intro msg hmsg
        rw [herr] at hmsg
        have hm : msg = "Missing required environment variables: "
            ++ String.intercalate ", " (a :: t) :=
          (Except.error.injEq _ _).mp hmsg.symm
        refine ⟨by rw [hm], fun v => hms ▸ mem_missing_vars_iff env v⟩

/-- Witness for C3: with every variable unset, construction fails and the
message names all five variables in order. -/
theorem init_fails_iff_missing_witness :
    ("Missing required environment variables: REDDIT_CLIENT_ID, REDDIT_CLIENT_SECRET, REDDIT_USERNAME, REDDIT_PASSWORD, REDDIT_USER_AGENT"
      = "Missing required environment variables: "
        ++ String.intercalate ", "
            (requiredVars.filter (fun v => pyFalsyStr (envNone v)))) ∧
    ∀ v, v ∈ requiredVars.filter (fun v => pyFalsyStr (envNone v)) ↔
      (v ∈ requiredVars ∧ (envNone v = none ∨ envNone v = some "")) :=
  (init_fails_iff_missing envNone).2
    "Missing required environment variables: REDDIT_CLIENT_ID, REDDIT_CLIENT_SECRET, REDDIT_USERNAME, REDDIT_PASSWORD, REDDIT_USER_AGENT"
    (by rfl)

/-- Claim C4: `get_recent_posts(limit)` returns at most `limit` entries,
exactly the (title, id) pairs of the first `limit` posts of the backend
newest-first stream of the authenticated account, and the empty list on
any failure, never raising. -/
theorem get_recent_posts_spec (m : RedditManager) (svc : RemoteService)
    (limit : Nat) :
    (m.get_recent_posts svc limit).value.length ≤ limit ∧
    (∀ posts, svc.userMe = .ok () →
      svc.ownSubmissionsNewestFirst = .ok posts →
      (m.get_recent_posts svc limit).value
        = (posts.take limit).map (fun p => (p.title, p.id))) ∧
    ((∃ e, svc.userMe = .error e) ∨
      (∃ e, svc.ownSubmissionsNewestFirst = .error e) →
      (m.get_recent_posts svc limit).value = []) := by
  unfold RedditManager.get_recent_posts
  cases hme : svc.userMe with
  | error e => simp
  | ok u =>
      cases u
      cases hl : svc.ownSubmissionsNewestFirst with
      | error e => simp
      | ok posts =>
          refine ⟨by simp [List.length_take], fun ps _ hps => ?_, ?_⟩
          · simp only [Except.ok.injEq] at hps
            subst hps
            rfl
          · rintro (⟨e, he⟩ | ⟨e, he⟩) <;> simp_all

/-- Witness for C4: with one post in the backend stream and limit 10,
the result is the single (title, id) pair. -/
theorem get_recent_posts_spec_witness :
    svc0.userMe = .ok () ∧
    svc0.ownSubmissionsNewestFirst = .ok [post0] ∧
    (mgr0.get_recent_posts svc0 10).value
      = ([post0].take 10).map (fun p => (p.title, p.id)) :=
  ⟨rfl, rfl, (get_recent_posts_spec mgr0 svc0 10).2.1 [post0] rfl rfl⟩

/-- Claim C6: `read_post` returns either the dictionary with exactly the
eight documented keys, populated from the fetched remote state, or
`None` on any failure, never raising. -/
theorem read_post_shape (m : RedditManager) (svc : RemoteService)
    (post_id : String) :
    (∀ e, svc.fetchSubmission post_id = .error e →
      (m.read_post svc post_id).value = none) ∧
    (∀ post, svc.fetchSubmission post_id = .ok post →
      (m.read_post svc post_id).value =
        some [("id", PyValue.str post.id),
              ("title", .str post.title),
              ("content", .str post.selftext),
              ("score", .int post.score),
              ("url", .str post.url),
              ("created_utc", .time post.created_utc),
              ("author", .str (pyStrOpt post.author)),
              ("num_comments", .int post.num_comments)]) ∧
    (∀ d, (m.read_post svc post_id).value = some d →
      d.map Prod.fst = ["id", "title", "content", "score", "url",
                        "created_utc", "author", "num_comments"]) := by
  unfold RedditManager.read_post
  cases hf : svc.fetchSubmission post_id with
  | error e => simp
  | ok post =>
      refine ⟨by simp, fun p hp => ?_, fun d hd => ?_⟩
      · simp only [Except.ok.injEq] at hp
        subst hp
        rfl
      · simp only [Option.some.injEq] at hd
        subst hd
        rfl

/-- Witness for C6 at the concrete service `svc0`. -/
theorem read_post_shape_witness :
    svc0.fetchSubmission "abc123" = .ok post0 ∧
    (mgr0.read_post svc0 "abc123").value =
      some [("id", PyValue.str post0.id),
            ("title", .str post0.title),
            ("content", .str post0.selftext),
            ("score", .int post0.score),
            ("url", .str post0.url),
            ("created_utc", .time post0.created_utc),
            ("author", .str (pyStrOpt post0.author)),
            ("num_comments", .int post0.num_comments)] :=
  ⟨rfl, (read_post_shape mgr0 svc0 "abc123").2.1 post0 rfl⟩

/-- Claim C7: `create_post` dispatches on the kind to the matching remote
submission (selftext, URL, or image-file body), returns the new post id
on success, and on any remote failure returns `None` with one logged
diagnostic carrying the original error text. -/
theorem create_post_dispatch (m : RedditManager) (svc : RemoteService)
    (subreddit_name title content : String) :
    ((m.create_post svc subreddit_name title content "text").calls
        = [RemoteCall.submitText subreddit_name title content] ∧
     (m.create_post svc subreddit_name title content "text").value
        = (svc.submitText subreddit_name title content).toOption ∧
     (m.create_post svc subreddit_name title content "text").log
        = (match svc.submitText subreddit_name title content with
           | .ok pid => ["Created post: " ++ pid]
           | .error e => ["Error creating post: " ++ e])) ∧
    ((m.create_post svc subreddit_name title content "link").calls
        = [RemoteCall.submitLink subreddit_name title content] ∧
     (m.create_post svc subreddit_name title content "link").value
        = (svc.submitLink subreddit_name title content).toOption ∧
     (m.create_post svc subreddit_name title content "link").log
        = (match svc.submitLink subreddit_name title content with
           | .ok pid => ["Created post: " ++ pid]
           | .error e => ["Error creating post: " ++ e])) ∧
    ((m.create_post svc subreddit_name title content "image").calls
        = [RemoteCall.submitImage subreddit_name title content] ∧
     (m.create_post svc subreddit_name title content "image").value
        = (svc.submitImage subreddit_name title content).toOption ∧
     (m.create_post svc subreddit_name title content "image").log
        = (match svc.submitImage subreddit_name title content with
           | .ok pid => ["Created post: " ++ pid]
           | .error e => ["Error creating post: " ++ e])) := by
  unfold RedditManager.create_post
  refine ⟨?_, ?_, ?_⟩
  · simp only [if_pos rfl]
    cases svc.submitText subreddit_name title content <;>
      exact ⟨rfl, rfl, rfl⟩
  · have h1 : ("link" = "text") = False := by simp
    simp only [h1, if_false, if_pos rfl]
    cases svc.submitLink subreddit_name title content <;>
      exact ⟨rfl, rfl, rfl⟩
  · have h1 : ("image" = "text") = False := by simp
    have h2 : ("image" = "link") = False := by simp
    simp only [h1, h2, if_false, if_pos rfl]
    cases svc.submitImage subreddit_name title content <;>
      exact ⟨rfl, rfl, rfl⟩

/-- Claim C8: the dictionary a successful `read_post` returns has no
`subreddit` key, so the Update Post branch of the UI always rebuilds the
display URL with the default `unknown` in place of the subreddit name. -/
theorem read_post_no_subreddit_field (m : RedditManager)
    (svc : RemoteService) (post_id : String) (d : PostDict)
    (h : (m.read_post svc post_id).value = some d) :
    d.find? (fun kv => kv.1 = "subreddit") = none ∧
    pyDictGetStr d "subreddit" "unknown" = "unknown" ∧
    updateFlowUrl d post_id
      = "https://www.reddit.com/r/unknown/comments/" ++ post_id ++ "/" := by
  unfold RedditManager.read_post at h
  cases hf : svc.fetchSubmission post_id with
  | error e =>
      rw [hf] at h
      simp at h
  | ok post =>
      rw [hf] at h
      simp only [Option.some.injEq] at h
      subst h
      refine ⟨rfl, rfl, ?_⟩
      show "https://www.reddit.com/r/" ++ "unknown" ++ "/comments/"
            ++ post_id ++ "/"
          = "https://www.reddit.com/r/unknown/comments/" ++ post_id ++ "/"
      simp

/-- Witness for C8 at the concrete service `svc0`. -/
theorem read_post_no_subreddit_field_witness :
    (mgr0.read_post svc0 "abc123").value = some postDict0 ∧
    postDict0.find? (fun kv => kv.1 = "subreddit") = none ∧
    pyDictGetStr postDict0 "subreddit" "unknown" = "unknown" ∧
    updateFlowUrl postDict0 "abc123"
      = "https://www.reddit.com/r/unknown/comments/" ++ "abc123" ++ "/" :=
  ⟨rfl, read_post_no_subreddit_field mgr0 svc0 "abc123" postDict0 rfl⟩

theorem appBody_none_stats (svc : RemoteService)
    (platform operation subreddit_name title content post_type
      new_content : String) (pressed : Bool) :
    ((appBody none svc platform operation subreddit_name title content
        post_type new_content pressed).countP
      (fun ev => match ev with | .errorMsg _ => true | _ => false) = 0) ∧
    (∀ c, UIEvent.facadeCall c
      ∉ appBody none svc platform operation subreddit_name title content
          post_type new_content pressed) := by
  unfold appBody
  split_ifs <;> simp [List.countP, List.countP.go]

/-- Claim C1 is false as stated: with every credential unset the
construction fails, yet the script, having caught the exception, still
renders the operation selector. -/
theorem init_failure_selector_still_rendered :
    RedditManager.init envNone
      = .error "Missing required environment variables: REDDIT_CLIENT_ID, REDDIT_CLIENT_SECRET, REDDIT_USERNAME, REDDIT_PASSWORD, REDDIT_USER_AGENT" ∧
    UIEvent.selectbox "Select Operation"
      ∈ appScript envNone svc0 "Reddit" "Create Post" "" "" "" "text" "" true := by
  exact ⟨rfl, by decide⟩

/-- Claim C1 (amended): when construction fails, the configuration error
is reported exactly once and no facade operation is ever invoked in that
run, but the process still serves the UI - the sidebar selectors are
rendered and the selected branch runs until it aborts on the unbound
facade name. -/
theorem init_failure_reported_once_ui_still_served (env : PyEnv)
    (svc : RemoteService)
    (platform operation subreddit_name title content post_type
      new_content : String) (pressed : Bool) (e : String)
    (h : RedditManager.init env = .error e) :
    ((appScript env svc platform operation subreddit_name title content
        post_type new_content pressed).countP
      (fun ev => match ev with | .errorMsg _ => true | _ => false) = 1) ∧
    UIEvent.selectbox "Select Operation"
      ∈ appScript env svc platform operation subreddit_name title content
          post_type new_content pressed ∧
    ∀ c, UIEvent.facadeCall c
      ∉ appScript env svc platform operation subreddit_name title content
          post_type new_content pressed := by
  obtain ⟨hcount, hno_call⟩ := appBody_none_stats svc platform operation
    subreddit_name title content post_type new_content pressed
  simp only [appScript, h]
  refine ⟨?_, ?_, ?_⟩
  · rw [List.countP_append, List.countP_append, hcount]
    rfl
  · simp
  · intro c hc
    rcases List.mem_append.mp hc with h1 | h2
    · rcases List.mem_append.mp h1 with h3 | h4
      · simp at h3
      · simp at h4
    · exact hno_call c h2

/-- Witness for the amended C1 at the all-unset environment. -/
theorem init_failure_reported_once_ui_still_served_witness :
    RedditManager.init envNone
      = .error "Missing required environment variables: REDDIT_CLIENT_ID, REDDIT_CLIENT_SECRET, REDDIT_USERNAME, REDDIT_PASSWORD, REDDIT_USER_AGENT" ∧
    (((appScript envNone svc0 "Reddit" "Read Post" "" "" "" "text" "" true).countP
        (fun ev => match ev with | .errorMsg _ => true | _ => false) = 1) ∧
     UIEvent.selectbox "Select Operation"
       ∈ appScript envNone svc0 "Reddit" "Read Post" "" "" "" "text" "" true ∧
     ∀ c, UIEvent.facadeCall c
       ∉ appScript envNone svc0 "Reddit" "Read Post" "" "" "" "text" "" true) :=
  ⟨rfl,
   init_failure_reported_once_ui_still_served envNone svc0 "Reddit"
     "Read Post" "" "" "" "text" "" true
     "Missing required environment variables: REDDIT_CLIENT_ID, REDDIT_CLIENT_SECRET, REDDIT_USERNAME, REDDIT_PASSWORD, REDDIT_USER_AGENT"
     rfl⟩
